import Mathlib

/-!
# Verification of the Universal News workflow coordination core

Shallow embedding of the orchestration core of the `universalnews`
repository (Python sources under `src/`), together with theorems settling
the frozen specification claims.

Embedding conventions:
* Python `float` arithmetic is modelled over `ℚ` (the computations at stake
  are sums, products and comparisons of small decimal constants);
* Python `Literal[...]` status strings are modelled as `String` values;
* a Python coroutine that may raise is modelled as a value of
  `Except String α`, the `String` being `str(e)` of the raised exception;
* mutation of the single run record by the coordinator is modelled by
  explicit state passing: each observation point of the record (every
  `await` boundary of the driving coroutine plus the final return) is an
  element of an explicit trace list.
-/

/-! ## Enumerations (src/models.py) -/

/-- The `ChannelType` enum of src/models.py, constructors in declaration order
(the order of `list(ChannelType)`). -/
inductive ChannelType where
  | newswire
  | journalist_outreach
  | social_media
  | owned_media
  | paid_media
  | seo_optimization
  | community
deriving DecidableEq, Repr

/-- The `IndustryCategory` enum of src/models.py. -/
inductive IndustryCategory where
  | technology | finance | healthcare | energy | retail
  | manufacturing | real_estate | telecommunications | transportation
  | entertainment | education | government | nonprofit | other
deriving DecidableEq, Repr

/-- The `UrgencyLevel` enum of src/models.py. -/
inductive UrgencyLevel where
  | immediate | urgent | standard | scheduled
deriving DecidableEq, Repr

/-- The `DistributionStatus` enum of src/models.py. -/
inductive DistributionStatus where
  | draft | pending | analyzing | planning | deploying
  | completed | failed | cancelled
deriving DecidableEq, Repr

/-! ## Deployment fan-out/fan-in (src/deployment_agent.py)

`ChannelDeploymentResult.status` is `Literal["success", "failed", "partial"]`
in src/models.py; it is embedded as a `String` taking those values. -/

/-- The `ChannelDeploymentResult` of src/models.py (the fields the deployment
fan-in reads; `submission_id` and `deployed_at` are not read by it and are
omitted). `url` is an `HttpUrl` in the source (always a non-empty string,
so Python truthiness of a present `url` is truth). -/
structure ChannelDeploymentResult where
  channel : ChannelType
  status : String
  url : Option String := none
  reach : Option Nat := none
  error_message : Option String := none
deriving DecidableEq, Repr

/-- One element of the list returned by
`asyncio.gather(*deployment_tasks, return_exceptions=True)` in
`DeploymentAgent.process`: either a raised exception (carrying `str(e)`)
or a returned `ChannelDeploymentResult`. -/
inductive GatherItem where
  | exn (msg : String)
  | res (r : ChannelDeploymentResult)
deriving DecidableEq, Repr

/-- The classification performed by the result loop of
`DeploymentAgent.process` (src/deployment_agent.py lines 82-99): an
exception is synthesized into a failed outcome hard-coded to the
`NEWSWIRE` channel; a returned result is passed through. -/
def classifyGatherItem (item : GatherItem) : ChannelDeploymentResult :=
  match item with
  | .exn m => { channel := .newswire, status := "failed", error_message := some m }
  | .res r => r

/-- Accumulator of the result loop of `DeploymentAgent.process`:
`successful_results`, `failed_results`, `public_urls`, `total_reach`. -/
structure FanInAcc where
  successful_results : List ChannelDeploymentResult
  failed_results : List ChannelDeploymentResult
  public_urls : List String
  total_reach : Nat
deriving DecidableEq, Repr

/-- One iteration of the result loop of `DeploymentAgent.process`.
`if result.url:` and `if result.reach:` are Python truthiness tests:
`None` is falsy, and so is a reach of `0` (a present `url` is a non-empty
`HttpUrl`, hence truthy). -/
def fanInStep (acc : FanInAcc) (item : GatherItem) : FanInAcc :=
  match item with
  | .exn m =>
      { acc with failed_results :=
          acc.failed_results ++ [{ channel := .newswire, status := "failed",
                                   error_message := some m }] }
  | .res r =>
      if r.status = "success" then
        { acc with
          successful_results := acc.successful_results ++ [r],
          public_urls :=
            match r.url with
            | some u => acc.public_urls ++ [u]
            | none => acc.public_urls,
          total_reach :=
            match r.reach with
            | some n => if n = 0 then acc.total_reach else acc.total_reach + n
            | none => acc.total_reach }
      else
        { acc with failed_results := acc.failed_results ++ [r] }

/-- The whole result loop of `DeploymentAgent.process`. -/
def fanIn (items : List GatherItem) : FanInAcc :=
  items.foldl fanInStep ⟨[], [], [], 0⟩

/-- The overall-status determination of `DeploymentAgent.process`
(src/deployment_agent.py lines 101-107): `success` when the successful
count equals the number of channels in the request, else `partial` when
the successful count is positive, else `failed`. -/
def overallStatusOf (nSuccessful nChannels : Nat) : String :=
  if nSuccessful = nChannels then "success"
  else if 0 < nSuccessful then "partial"
  else "failed"

/-- The `ChannelAllocation` of src/models.py restricted to the fields the
deployment agent reads (`channel`, `allocated_budget`). -/
structure DeployChannelAlloc where
  channel : ChannelType
  allocated_budget : ℚ
deriving DecidableEq, Repr

/-- The `DistributionResults` of src/models.py (the fields
`DeploymentAgent.process` computes; `distribution_id`, `error_summary` and
`deployed_at` are omitted as no claim reads them). -/
structure DistributionResults where
  channel_results : List ChannelDeploymentResult
  total_channels_deployed : Nat
  successful_deployments : Nat
  failed_deployments : Nat
  initial_reach : Nat
  public_urls : List String
  overall_status : String
deriving DecidableEq, Repr

/-- The `DeploymentAgent.process` after the concurrent gather: consumes the
channel list of the request and the per-channel gather results (one per
channel, in channel order) and produces the `DistributionResults`. -/
def deploymentProcess (channels : List DeployChannelAlloc)
    (items : List GatherItem) : DistributionResults :=
  let acc := fanIn items
  { channel_results := acc.successful_results ++ acc.failed_results
    total_channels_deployed := channels.length
    successful_deployments := acc.successful_results.length
    failed_deployments := acc.failed_results.length
    initial_reach := acc.total_reach
    public_urls := acc.public_urls
    overall_status := overallStatusOf acc.successful_results.length channels.length }

/-- The `DeploymentAgent._deploy_to_channel` (src/deployment_agent.py lines
128-162): the channel-specific delivery operation (modelled abstractly as
an `Except`, `error` being a raised exception) is wrapped in
`try/except Exception`, converting any exception into a failed outcome for
that channel carrying the error text. -/
def deployToChannel (channel : ChannelType)
    (op : Except String ChannelDeploymentResult) : ChannelDeploymentResult :=
  match op with
  | .ok r => r
  | .error e => { channel := channel, status := "failed", error_message := some e }

/-- The `DeploymentAgent.process` end to end: one `_deploy_to_channel` task per
channel of the request (`inner` gives the behaviour of the channel-specific
delivery operation), gathered and fanned in. Since `_deploy_to_channel`
catches every exception, every gather item is a returned result. -/
def runDeployment (channels : List DeployChannelAlloc)
    (inner : ChannelType → ℚ → Except String ChannelDeploymentResult) :
    DistributionResults :=
  deploymentProcess channels
    (channels.map fun a => .res (deployToChannel a.channel (inner a.channel a.allocated_budget)))

/-! ### Fan-in lemmas -/

theorem fanIn_go (items : List GatherItem) (acc : FanInAcc) :
    (items.foldl fanInStep acc).successful_results
      = acc.successful_results
        ++ (items.map classifyGatherItem).filter (fun r => decide (r.status = "success"))
    ∧ (items.foldl fanInStep acc).failed_results
      = acc.failed_results
        ++ (items.map classifyGatherItem).filter (fun r => !decide (r.status = "success")) := by
  induction items generalizing acc with
  | nil => simp
  | cons item rest ih =>
    obtain ⟨h1, h2⟩ := ih (fanInStep acc item)
    rw [List.foldl_cons]
    constructor
    · rw [h1]
      rcases item with m | r
      · simp [fanInStep, classifyGatherItem]
      · by_cases h : r.status = "success" <;>
          simp [fanInStep, classifyGatherItem, h]
    · rw [h2]
      rcases item with m | r
      · simp [fanInStep, classifyGatherItem]
      · by_cases h : r.status = "success" <;>
          simp [fanInStep, classifyGatherItem, h]

theorem fanIn_successful (items : List GatherItem) :
    (fanIn items).successful_results
      = (items.map classifyGatherItem).filter (fun r => decide (r.status = "success")) := by
  simpa [fanIn] using (fanIn_go items ⟨[], [], [], 0⟩).1

theorem fanIn_failed (items : List GatherItem) :
    (fanIn items).failed_results
      = (items.map classifyGatherItem).filter (fun r => !decide (r.status = "success")) := by
  simpa [fanIn] using (fanIn_go items ⟨[], [], [], 0⟩).2

/-- Every gather item lands in exactly one of the two result buckets:
their concatenation is a permutation of the classified items. -/
theorem fanIn_perm (items : List GatherItem) :
    ((fanIn items).successful_results ++ (fanIn items).failed_results).Perm
      (items.map classifyGatherItem) := by
  rw [fanIn_successful, fanIn_failed]
  exact List.filter_append_perm _ _

theorem fanIn_length (items : List GatherItem) :
    (fanIn items).successful_results.length + (fanIn items).failed_results.length
      = items.length := by
  have h := (fanIn_perm items).length_eq
  simpa using h

theorem fanIn_successful_le (items : List GatherItem) :
    (fanIn items).successful_results.length ≤ items.length := by
  have h := fanIn_length items
  omega

/-! ### Characterization of the overall-status computation -/

theorem overallStatusOf_success_iff (s n : Nat) :
    overallStatusOf s n = "success" ↔ s = n := by
  unfold overallStatusOf
  split_ifs with h1 h2
  · simpa using h1
  · constructor
    · intro hh; exact absurd hh (by decide)
    · intro hh; exact absurd hh h1
  · constructor
    · intro hh; exact absurd hh (by decide)
    · intro hh; exact absurd hh h1

theorem overallStatusOf_failed_iff (s n : Nat) (h : s ≤ n) :
    overallStatusOf s n = "failed" ↔ s = 0 ∧ n ≠ 0 := by
  unfold overallStatusOf
  split_ifs with h1 h2
  · constructor
    · intro hh; exact absurd hh (by decide)
    · intro hh; omega
  · constructor
    · intro hh; exact absurd hh (by decide)
    · intro hh; omega
  · constructor
    · intro _; omega
    · intro _; rfl

theorem overallStatusOf_partial_iff (s n : Nat) (h : s ≤ n) :
    overallStatusOf s n = "partial" ↔ 0 < s ∧ s < n := by
  unfold overallStatusOf
  split_ifs with h1 h2
  · constructor
    · intro hh; exact absurd hh (by decide)
    · intro hh; omega
  · constructor
    · intro _; omega
    · intro _; rfl
  · constructor
    · intro hh; exact absurd hh (by decide)
    · intro hh; omega

theorem runDeployment_successful_le (channels : List DeployChannelAlloc)
    (inner : ChannelType → ℚ → Except String ChannelDeploymentResult) :
    (runDeployment channels inner).successful_deployments
      ≤ (runDeployment channels inner).total_channels_deployed := by
  have h := fanIn_successful_le
    (channels.map fun a => .res (deployToChannel a.channel (inner a.channel a.allocated_budget)))
  simpa [runDeployment, deploymentProcess] using h

/-- C1 counterexample: with zero attempted channels the fan-in computes
`successful_count == total_count` first (`0 == 0`), so the aggregate
overall status is `"success"`, not `"failed"` as the claim states. -/
theorem deployment_zero_channels_success :
    (runDeployment [] (fun _ _ => .error "unused")).overall_status = "success"
    ∧ (runDeployment [] (fun _ _ => .error "unused")).successful_deployments = 0
    ∧ (runDeployment [] (fun _ _ => .error "unused")).overall_status ≠ "failed" := by
  refine ⟨rfl, rfl, by decide⟩

/-- C1 (amended): for every list of per-channel deployment outcomes, the
aggregate overall status is `"success"` iff the successful count equals
the total attempted count (including the zero-channel case, where the
status is `"success"`), `"failed"` iff the successful count is 0 and at
least one channel was attempted, and `"partial"` iff the successful count
is strictly between 0 and the total. -/
theorem deployment_overall_status_amended (channels : List DeployChannelAlloc)
    (inner : ChannelType → ℚ → Except String ChannelDeploymentResult) :
    ((runDeployment channels inner).overall_status = "success"
        ↔ (runDeployment channels inner).successful_deployments
            = (runDeployment channels inner).total_channels_deployed)
    ∧ ((runDeployment channels inner).overall_status = "failed"
        ↔ (runDeployment channels inner).successful_deployments = 0
          ∧ (runDeployment channels inner).total_channels_deployed ≠ 0)
    ∧ ((runDeployment channels inner).overall_status = "partial"
        ↔ 0 < (runDeployment channels inner).successful_deployments
          ∧ (runDeployment channels inner).successful_deployments
              < (runDeployment channels inner).total_channels_deployed) := by
  have hle := runDeployment_successful_le channels inner
  exact ⟨overallStatusOf_success_iff _ _,
    overallStatusOf_failed_iff _ _ hle,
    overallStatusOf_partial_iff _ _ hle⟩

/-! ### Per-channel failure isolation (C5, C9) -/

/-- Concrete three-channel mix for the isolation scenario: A = newswire,
B = social media, C = community. -/
def isolationChannels : List DeployChannelAlloc :=
  [⟨.newswire, 100⟩, ⟨.social_media, 50⟩, ⟨.community, 0⟩]

/-- Delivery behaviour in which channel B's operation raises while A's and
C's succeed. -/
def isolationInner : ChannelType → ℚ → Except String ChannelDeploymentResult :=
  fun ch _ =>
    match ch with
    | .social_media => .error "boom"
    | _ => .ok { channel := ch, status := "success", reach := some 10 }

/-- C5: every channel's delivery is independent: an operation that raises
is caught by `_deploy_to_channel` and converted into a failed outcome for
that channel carrying the error text (so exceptions never escape the
stage); every channel contributes exactly one result to `channel_results`
(a permutation of the per-channel outcomes, so no result is discarded);
and in the concrete 3-channel scenario where B raises while A and C
succeed, the aggregate is `"partial"` with 2 successful, 1 failed, and
A's and C's results present. -/
theorem deployment_failure_isolation :
    (∀ (ch : ChannelType) (e : String),
        deployToChannel ch (.error e)
          = { channel := ch, status := "failed", error_message := some e })
    ∧ (∀ (channels : List DeployChannelAlloc)
          (inner : ChannelType → ℚ → Except String ChannelDeploymentResult),
        (runDeployment channels inner).channel_results.Perm
          (channels.map fun a => deployToChannel a.channel (inner a.channel a.allocated_budget)))
    ∧ ((runDeployment isolationChannels isolationInner).overall_status = "partial"
        ∧ (runDeployment isolationChannels isolationInner).successful_deployments = 2
        ∧ (runDeployment isolationChannels isolationInner).failed_deployments = 1
        ∧ ({ channel := ChannelType.newswire, status := "success", reach := some 10 : ChannelDeploymentResult })
            ∈ (runDeployment isolationChannels isolationInner).channel_results
        ∧ ({ channel := ChannelType.community, status := "success", reach := some 10 : ChannelDeploymentResult })
            ∈ (runDeployment isolationChannels isolationInner).channel_results) := by
  refine ⟨fun ch e => rfl, fun channels inner => ?_, by decide⟩
  have h := fanIn_perm
    (channels.map fun a => .res (deployToChannel a.channel (inner a.channel a.allocated_budget)))
  simpa [runDeployment, deploymentProcess, List.map_map, classifyGatherItem,
    Function.comp] using h

/-- C9: whenever an exception reaches the fan-in step as a gather item
(the `isinstance(result, Exception)` branch), the synthesized failed
outcome's channel field is the `NEWSWIRE` channel, whatever channel's
operation actually raised. -/
theorem gather_exception_reported_as_newswire
    (channels : List DeployChannelAlloc) (items : List GatherItem) (m : String)
    (h : GatherItem.exn m ∈ items) :
    ({ channel := ChannelType.newswire, status := "failed", error_message := some m : ChannelDeploymentResult })
      ∈ (deploymentProcess channels items).channel_results := by
  have hmem : classifyGatherItem (.exn m) ∈ items.map classifyGatherItem :=
    List.mem_map_of_mem _ h
  have hfail : classifyGatherItem (.exn m) ∈ (fanIn items).failed_results := by
    rw [fanIn_failed]
    exact List.mem_filter.mpr ⟨hmem, by simp [classifyGatherItem]⟩
  have : classifyGatherItem (.exn m)
      ∈ (fanIn items).successful_results ++ (fanIn items).failed_results :=
    List.mem_append_right _ hfail
  simpa [deploymentProcess, classifyGatherItem] using this

/-- Witness for C9: a run whose only channel is `community`, whose gather
result is a raw exception, still reports the synthesized failure under
`newswire`. -/
theorem gather_exception_reported_as_newswire_witness :
    ({ channel := ChannelType.newswire, status := "failed", error_message := some "boom" : ChannelDeploymentResult })
      ∈ (deploymentProcess [⟨.community, 5⟩] [.exn "boom"]).channel_results :=
  gather_exception_reported_as_newswire [⟨.community, 5⟩] [.exn "boom"] "boom" (by decide)

/-! ## Channel router (src/channel_router_agent.py) -/

/-- One row of the channel performance table built by the router's
constructor (src/channel_router_agent.py lines 46-105). `industries` is
`none` for the `'all'` marker, otherwise the explicit industry list;
`urgency_bonus` is the per-urgency dictionary, with `none` for absent
keys (looked up with default `1.0`). -/
structure ChannelPerf where
  base_cost : ℚ
  reach_per_dollar : ℚ
  pickup_rate : ℚ
  roi_multiplier : ℚ
  industries : Option (List IndustryCategory)
  urgency_bonus : List (UrgencyLevel × ℚ)
deriving DecidableEq, Repr

/-- Dictionary lookup `perf['urgency_bonus'].get(urgency, 1.0)` of
`_score_channels`. -/
def urgencyLookup (bonus : List (UrgencyLevel × ℚ)) (urgency : UrgencyLevel) : ℚ :=
  ((bonus.find? fun p => p.1 == urgency).map fun p => p.2).getD 1.0

/-- The channel performance table (`self.channel_performance`), one row
per `ChannelType`, values copied from the source. Every enum member is a
key of the Python dict, so the `if not perf: continue` guard of
`_score_channels` never fires. -/
def channelPerformance : ChannelType → ChannelPerf
  | .newswire =>
    { base_cost := 500, reach_per_dollar := 200, pickup_rate := 0.15,
      roi_multiplier := 4.5, industries := some [.technology, .finance],
      urgency_bonus := [(.immediate, 1.3), (.urgent, 1.2)] }
  | .journalist_outreach =>
    { base_cost := 300, reach_per_dollar := 150, pickup_rate := 0.25,
      roi_multiplier := 5.0, industries := none,
      urgency_bonus := [(.immediate, 1.1), (.urgent, 1.0)] }
  | .social_media =>
    { base_cost := 0, reach_per_dollar := 500, pickup_rate := 0.05,
      roi_multiplier := 3.0, industries := some [.technology, .retail],
      urgency_bonus := [(.immediate, 1.5), (.urgent, 1.3)] }
  | .owned_media =>
    { base_cost := 0, reach_per_dollar := 300, pickup_rate := 0.02,
      roi_multiplier := 2.0, industries := none,
      urgency_bonus := [] }
  | .paid_media =>
    { base_cost := 1000, reach_per_dollar := 100, pickup_rate := 0.08,
      roi_multiplier := 3.5, industries := some [.retail, .finance],
      urgency_bonus := [(.immediate, 1.2)] }
  | .seo_optimization =>
    { base_cost := 200, reach_per_dollar := 400, pickup_rate := 0.10,
      roi_multiplier := 6.0, industries := none,
      urgency_bonus := [] }
  | .community =>
    { base_cost := 0, reach_per_dollar := 250, pickup_rate := 0.12,
      roi_multiplier := 4.0, industries := some [.technology],
      urgency_bonus := [(.immediate, 1.4)] }

/-- The fields of `ContentAnalysis` (src/models.py) that the router's
scoring reads. -/
structure ContentAnalysisInput where
  primary_industry : IndustryCategory
  newsworthiness_score : ℚ
  viral_potential : ℚ
deriving DecidableEq, Repr

/-- The industry-fit test of `_score_channels`:
`perf['industries'] == 'all' or primary_industry in perf['industries']`. -/
def industryFit (perf : ChannelPerf) (primary : IndustryCategory) : Bool :=
  match perf.industries with
  | none => true
  | some l => primary ∈ l

/-- The `ChannelRouterAgent._score_channels`, scoring of one channel
(src/channel_router_agent.py lines 210-246): base score 0.5 plus the
additive bonuses, capped at 1.0. -/
def scoreChannel (channel : ChannelType) (analysis : ContentAnalysisInput)
    (urgency : UrgencyLevel) (budget : ℚ) : ℚ :=
  let perf := channelPerformance channel
  let score : ℚ := 0.5
  let score := if industryFit perf analysis.primary_industry then score + 0.2 else score
  let urgencyMult := urgencyLookup perf.urgency_bonus urgency
  let score := if 1.0 < urgencyMult then score + 0.1 * (urgencyMult - 1.0) else score
  let score :=
    if 0.7 < analysis.newsworthiness_score then
      if channel = .newswire ∨ channel = .journalist_outreach then score + 0.15 else score
    else score
  let score :=
    if 0.7 < analysis.viral_potential then
      if channel = .social_media ∨ channel = .community then score + 0.15 else score
    else score
  let score :=
    if perf.base_cost = 0 then score + 0.1
    else if perf.base_cost < budget * 0.3 then score + 0.05
    else score
  min 1.0 score

/-- One entry of the list returned by `_score_channels`: the
`(channel, score, perf)` triple. -/
structure ScoredChannel where
  channel : ChannelType
  score : ℚ
  perf : ChannelPerf
deriving DecidableEq, Repr

/-- The `ChannelRouterAgent._score_channels` (src/channel_router_agent.py
lines 199-251): score every candidate channel, then
`scores.sort(key=lambda x: x[1], reverse=True)` — a stable descending
sort by score, embedded as a stable merge sort with the
"higher-or-equal score first" comparison. -/
def scoreChannels (channels : List ChannelType) (analysis : ContentAnalysisInput)
    (urgency : UrgencyLevel) (budget : ℚ) : List ScoredChannel :=
  let scores := channels.map fun ch =>
    ScoredChannel.mk ch (scoreChannel ch analysis urgency budget) (channelPerformance ch)
  scores.mergeSort fun a b => decide (b.score ≤ a.score)

/-- The `ChannelRouterAgent._filter_channels_by_compliance`
(src/channel_router_agent.py lines 181-197): a forced channel subset is
used verbatim; otherwise all channels, in enum declaration order. -/
def filterChannelsByCompliance (forced : Option (List ChannelType)) : List ChannelType :=
  match forced with
  | some l => if l.isEmpty then allChannelTypes else l
  | none => allChannelTypes
where
  /-- The `list(ChannelType)` in declaration order. -/
  allChannelTypes : List ChannelType :=
    [.newswire, .journalist_outreach, .social_media, .owned_media,
     .paid_media, .seo_optimization, .community]

/-! ## Budget allocation (src/channel_router_agent.py lines 253-389) -/

/-- Python `int()` truncation toward zero of a rational. -/
def pyInt (q : ℚ) : ℤ :=
  if 0 ≤ q then ⌊q⌋ else ⌈q⌉

/-- The `ChannelAllocation` of src/models.py. The human-readable `rationale`
text is carried opaquely (no claim reads it; the source formats it from
the score or the optimizer's reasoning). -/
structure ChannelAllocation where
  channel : ChannelType
  allocated_budget : ℚ
  expected_reach : ℤ
  expected_pickups : ℤ
  expected_roi : ℚ
  rationale : String
deriving DecidableEq, Repr

/-- Sum of allocated budgets,
`sum(ch.allocated_budget for ch in allocations)`. -/
def sumBudgets (allocations : List ChannelAllocation) : ℚ :=
  (allocations.map fun a => a.allocated_budget).sum

/-- One entry of the optimizer's (LLM's) parsed JSON response in
`_optimize_budget_allocation`: a channel whose name parsed as a valid
`ChannelType`, its proposed budget as parsed by `float(...)`, and the
reasoning text (`alloc.get('reasoning', 'LLM recommendation')` already
applied). Entries whose channel or budget fails to parse are skipped by
the source and are not represented. -/
structure LLMAllocEntry where
  channel : ChannelType
  budget : ℚ
  reasoning : String
deriving DecidableEq, Repr

/-- The `next((p for ch, s, p in channel_scores if ch == channel), None)` of
`_optimize_budget_allocation`. -/
def findPerf (channelScores : List ScoredChannel) (channel : ChannelType) :
    Option ChannelPerf :=
  (channelScores.find? fun sc => sc.channel == channel).map fun sc => sc.perf

/-- The `ChannelAllocation` built for one accepted optimizer entry
(src/channel_router_agent.py lines 313-325): the budget is taken from the
response unchanged; `expected_reach = int(budget * reach_per_dollar)`,
`expected_pickups = int(expected_reach * pickup_rate)`,
`expected_roi = roi_multiplier * 100`. -/
def mkLLMAllocation (channel : ChannelType) (budget : ℚ) (perf : ChannelPerf)
    (reasoning : String) : ChannelAllocation :=
  let expectedReach := pyInt (budget * perf.reach_per_dollar)
  { channel := channel
    allocated_budget := budget
    expected_reach := expectedReach
    expected_pickups := pyInt ((expectedReach : ℚ) * perf.pickup_rate)
    expected_roi := perf.roi_multiplier * 100
    rationale := reasoning }

/-- The loop of `ChannelRouterAgent._fallback_allocation`
(src/channel_router_agent.py lines 356-389) over the (at most three)
top-scored channels, threading the remaining budget: a zero-base-cost
channel is included with budget 0; a paid channel gets
`min(base_cost + remaining * 0.3, remaining)`; the loop breaks when the
remaining budget is ≤ 0. -/
def fallbackLoop (scored : List ScoredChannel) (remaining : ℚ) :
    List ChannelAllocation :=
  match scored with
  | [] => []
  | sc :: rest =>
    if remaining ≤ 0 then []
    else
      let budget :=
        if sc.perf.base_cost = 0 then (0 : ℚ)
        else min (sc.perf.base_cost + remaining * 0.3) remaining
      let expectedReach :=
        if 0 < budget then pyInt (budget * sc.perf.reach_per_dollar) else 10000
      { channel := sc.channel
        allocated_budget := budget
        expected_reach := expectedReach
        expected_pickups := pyInt ((expectedReach : ℚ) * sc.perf.pickup_rate)
        expected_roi := sc.perf.roi_multiplier * 100
        rationale := "score-based recommendation" }
        :: fallbackLoop rest (remaining - budget)

/-- The `ChannelRouterAgent._fallback_allocation`: run the loop over
`channel_scores[:3]` starting from the full budget. -/
def fallbackAllocation (channelScores : List ScoredChannel) (totalBudget : ℚ) :
    List ChannelAllocation :=
  fallbackLoop (channelScores.take 3) totalBudget

/-- The `ChannelRouterAgent._optimize_budget_allocation`
(src/channel_router_agent.py lines 253-335). `llmResponse` is the parsed
optimizer response: `none` when `call_llm_json` raised (the
`except` branch), otherwise the list of parseable allocation entries.
Entries whose channel has no row in `channel_scores` are skipped; if no
entry survives, or the call raised, the fallback allocation is used.
Accepted budgets are taken from the response without validation. -/
def optimizeBudgetAllocation (channelScores : List ScoredChannel)
    (totalBudget : ℚ) (llmResponse : Option (List LLMAllocEntry)) :
    List ChannelAllocation :=
  match llmResponse with
  | none => fallbackAllocation channelScores totalBudget
  | some resp =>
    let allocations := resp.filterMap fun entry =>
      match findPerf channelScores entry.channel with
      | none => none
      | some perf => some (mkLLMAllocation entry.channel entry.budget perf entry.reasoning)
    if allocations.isEmpty then fallbackAllocation channelScores totalBudget
    else allocations

/-! ### C3: budget invariant -/

theorem fallbackLoop_invariant (scored : List ScoredChannel) :
    ∀ remaining : ℚ, 0 ≤ remaining →
      (∀ sc ∈ scored, 0 ≤ sc.perf.base_cost) →
      sumBudgets (fallbackLoop scored remaining) ≤ remaining
      ∧ ∀ a ∈ fallbackLoop scored remaining, 0 ≤ a.allocated_budget := by
  induction scored with
  | nil =>
    intro r hr _
    simp [fallbackLoop, sumBudgets]
    exact hr
  | cons sc rest ih =>
    intro r hr hbc
    by_cases hle : r ≤ 0
    · constructor
      · simpa [fallbackLoop, hle, sumBudgets] using hr
      · simp [fallbackLoop, hle]
    · push_neg at hle
      have hbase : 0 ≤ sc.perf.base_cost := hbc sc (List.mem_cons_self _ _)
      set budget : ℚ :=
        if sc.perf.base_cost = 0 then (0 : ℚ)
        else min (sc.perf.base_cost + r * 0.3) r with hbdef
      have hb0 : 0 ≤ budget := by
        rw [hbdef]
        split_ifs with h
        · exact le_refl 0
        · exact le_min (by nlinarith) (le_of_lt hle)
      have hble : budget ≤ r := by
        rw [hbdef]
        split_ifs with h
        · exact le_of_lt hle
        · exact min_le_right _ _
      obtain ⟨ih1, ih2⟩ := ih (r - budget) (by linarith)
        (fun x hx => hbc x (List.mem_cons_of_mem _ hx))
      have hnot : ¬ r ≤ 0 := not_le.mpr hle
      constructor
      · have : sumBudgets (fallbackLoop (sc :: rest) r)
            = budget + sumBudgets (fallbackLoop rest (r - budget)) := by
          simp [fallbackLoop, hnot, sumBudgets, hbdef]
        rw [this]
        linarith
      · intro a ha
        simp only [fallbackLoop] at ha
        rw [if_neg hnot] at ha
        rw [← hbdef] at ha
        rcases List.mem_cons.mp ha with h | h
        · rw [h]
          exact hb0
        · exact ih2 a h

/-- Scored-channel list for the overspend scenario: a single newswire
candidate (scored as the router would score it for a technology story at
standard urgency with budget 1000). -/
def overspendScores : List ScoredChannel :=
  [⟨.newswire, 0.7, channelPerformance .newswire⟩]

/-- An optimizer (LLM) response that proposes spending 2000 against a
requested total budget of 1000. -/
def overspendResponse : List LLMAllocEntry :=
  [⟨.newswire, 2000, "spend big"⟩]

/-- C3 counterexample: the guided optimization path copies the
optimizer's budgets into the allocation list without validating them
against the requested total, so the sum of allocated budgets can exceed
the requested total budget (2000 > 1000 here). -/
theorem allocation_overspend_counterexample :
    sumBudgets (optimizeBudgetAllocation overspendScores 1000 (some overspendResponse)) = 2000
    ∧ ¬ sumBudgets (optimizeBudgetAllocation overspendScores 1000 (some overspendResponse)) ≤ 1000 := by
  have h : sumBudgets (optimizeBudgetAllocation overspendScores 1000 (some overspendResponse))
      = 2000 := by
    simp [sumBudgets, optimizeBudgetAllocation, overspendScores, overspendResponse,
      findPerf, mkLLMAllocation, List.find?]
  refine ⟨h, ?_⟩
  rw [h]
  norm_num

/-- C3 (amended): the fallback path always satisfies the invariant — for
a nonnegative requested budget and table-backed (nonnegative) base costs,
the sum of allocated budgets is at most the requested total and every
individual budget is at least 0 — and the guided path reduces to the
fallback whenever the optimization call raises; the guided path's own
accepted budgets are taken from the optimizer's response unvalidated. -/
theorem allocation_budget_invariant_amended :
    (∀ (channelScores : List ScoredChannel) (totalBudget : ℚ),
        0 ≤ totalBudget →
        (∀ sc ∈ channelScores, 0 ≤ sc.perf.base_cost) →
        sumBudgets (fallbackAllocation channelScores totalBudget) ≤ totalBudget
        ∧ ∀ a ∈ fallbackAllocation channelScores totalBudget, 0 ≤ a.allocated_budget)
    ∧ (∀ (channelScores : List ScoredChannel) (totalBudget : ℚ),
        optimizeBudgetAllocation channelScores totalBudget none
          = fallbackAllocation channelScores totalBudget) := by
  constructor
  · intro channelScores totalBudget hb hbc
    exact fallbackLoop_invariant (channelScores.take 3) totalBudget hb
      (fun sc hsc => hbc sc ((List.take_sublist 3 channelScores).subset hsc))
  · intro channelScores totalBudget
    rfl

/-- Witness for the amended C3: the fallback allocation over the scenario
of spec §8 (budget 1000, a free channel scored 0.9 and a paid channel of
base cost 1500 scored 0.4) respects the budget cap and nonnegativity. -/
theorem allocation_budget_invariant_amended_witness :
    sumBudgets (fallbackAllocation
        [⟨.social_media, 0.9, channelPerformance .social_media⟩,
         ⟨.paid_media, 0.4,
          { channelPerformance .paid_media with base_cost := 1500 }⟩] 1000) ≤ 1000
    ∧ ∀ a ∈ fallbackAllocation
        [⟨.social_media, 0.9, channelPerformance .social_media⟩,
         ⟨.paid_media, 0.4,
          { channelPerformance .paid_media with base_cost := 1500 }⟩] 1000,
        0 ≤ a.allocated_budget :=
  allocation_budget_invariant_amended.1
    [⟨.social_media, 0.9, channelPerformance .social_media⟩,
     ⟨.paid_media, 0.4, { channelPerformance .paid_media with base_cost := 1500 }⟩]
    1000 (by norm_num) (by decide)

/-! ### C8: scoring formula and ranking -/

/-- The scoring formula exactly as the claim words it: base 0.5 plus
additive bonuses — +0.2 for industry fit or industry-agnostic channels,
+0.1 times the excess of the urgency multiplier over 1.0 when positive,
+0.15 for newsworthiness over 0.7 on newswire or journalist outreach,
+0.15 for viral potential over 0.7 on social media or community, +0.1 for
zero base cost else +0.05 when base cost is under 30% of total budget —
clamped to at most 1.0. Stated from the claim's words, to be compared
with `scoreChannel` (translated from the source). -/
def claimChannelScore (channel : ChannelType) (analysis : ContentAnalysisInput)
    (urgency : UrgencyLevel) (budget : ℚ) : ℚ :=
  let perf := channelPerformance channel
  let um := urgencyLookup perf.urgency_bonus urgency
  min 1.0 (0.5
    + (if industryFit perf analysis.primary_industry then 0.2 else 0)
    + (if 1.0 < um then 0.1 * (um - 1.0) else 0)
    + (if 0.7 < analysis.newsworthiness_score
          ∧ (channel = .newswire ∨ channel = .journalist_outreach) then 0.15 else 0)
    + (if 0.7 < analysis.viral_potential
          ∧ (channel = .social_media ∨ channel = .community) then 0.15 else 0)
    + (if perf.base_cost = 0 then 0.1
       else if perf.base_cost < budget * 0.3 then 0.05 else 0))

theorem ite_add_shift (c : Prop) [Decidable c] (s x : ℚ) :
    (if c then s + x else s) = s + (if c then x else 0) := by
  split_ifs <;> simp

theorem ite_add_else_shift (c : Prop) [Decidable c] (s x z : ℚ) :
    (if c then s + x else s + z) = s + (if c then x else z) := by
  split_ifs <;> simp

theorem ite_ite_and (c1 c2 : Prop) [Decidable c1] [Decidable c2] (x : ℚ) :
    (if c1 then (if c2 then x else 0) else 0) = if c1 ∧ c2 then x else 0 := by
  split_ifs with h1 h2 <;> simp_all

theorem scoredLE_trans : ∀ (a b c : ScoredChannel),
    (decide (b.score ≤ a.score)) = true → (decide (c.score ≤ b.score)) = true →
    (decide (c.score ≤ a.score)) = true := by
  intro a b c hab hbc
  simp only [decide_eq_true_eq] at *
  linarith

theorem scoredLE_total : ∀ (a b : ScoredChannel),
    ((decide (b.score ≤ a.score)) || (decide (a.score ≤ b.score))) = true := by
  intro a b
  simpa using le_total b.score a.score

/-- C8: the router's per-channel score agrees with the claim's additive
formula, and `_score_channels` ranks the scored channels descending by
score — its output is a permutation of the scored input, pairwise sorted
by descending score, and stable: a pair appearing in encounter order in
the input with equal scores appears in that order in the output. -/
theorem channel_scoring_and_ranking :
    (∀ (channel : ChannelType) (analysis : ContentAnalysisInput)
        (urgency : UrgencyLevel) (budget : ℚ),
        scoreChannel channel analysis urgency budget
          = claimChannelScore channel analysis urgency budget)
    ∧ (∀ (channels : List ChannelType) (analysis : ContentAnalysisInput)
          (urgency : UrgencyLevel) (budget : ℚ),
        (scoreChannels channels analysis urgency budget).Perm
          (channels.map fun ch =>
            ScoredChannel.mk ch (scoreChannel ch analysis urgency budget)
              (channelPerformance ch))
        ∧ (scoreChannels channels analysis urgency budget).Pairwise
            (fun x y => y.score ≤ x.score)
        ∧ ∀ (a b : ScoredChannel),
            [a, b].Sublist (channels.map fun ch =>
              ScoredChannel.mk ch (scoreChannel ch analysis urgency budget)
                (channelPerformance ch)) →
            a.score = b.score →
            [a, b].Sublist (scoreChannels channels analysis urgency budget)) := by
  constructor
  · intro channel analysis urgency budget
    simp only [scoreChannel, claimChannelScore, ite_add_shift, ite_add_else_shift,
      ite_ite_and]
  · intro channels analysis urgency budget
    have hdefn : scoreChannels channels analysis urgency budget
        = (channels.map fun ch =>
            ScoredChannel.mk ch (scoreChannel ch analysis urgency budget)
              (channelPerformance ch)).mergeSort
            (fun a b => decide (b.score ≤ a.score)) := rfl
    rw [hdefn]
    refine ⟨List.mergeSort_perm _ _, ?_, ?_⟩
    · have h := List.sorted_mergeSort scoredLE_trans scoredLE_total
        (channels.map fun ch =>
          ScoredChannel.mk ch (scoreChannel ch analysis urgency budget)
            (channelPerformance ch))
      exact h.imp (fun hxy => of_decide_eq_true hxy)
    · intro a b hsub heq
      exact List.pair_sublist_mergeSort scoredLE_trans scoredLE_total
        (decide_eq_true (le_of_eq heq.symm)) hsub

/-- Content profile for the ranking witness: a technology story of middling
newsworthiness and viral potential. -/
def demoAnalysis : ContentAnalysisInput :=
  { primary_industry := .technology, newsworthiness_score := 0.5, viral_potential := 0.5 }

/-- All candidate channels, as produced by the compliance filter with no
forced subset. -/
def demoChannels : List ChannelType := filterChannelsByCompliance none

/-- Witness for C8: with the demo profile, newswire and journalist
outreach tie at score 0.7 and keep their encounter order in the ranking. -/
theorem channel_scoring_and_ranking_witness :
    [ScoredChannel.mk .newswire (scoreChannel .newswire demoAnalysis .standard 1000)
        (channelPerformance .newswire),
     ScoredChannel.mk .journalist_outreach
        (scoreChannel .journalist_outreach demoAnalysis .standard 1000)
        (channelPerformance .journalist_outreach)].Sublist
      (scoreChannels demoChannels demoAnalysis .standard 1000) := by
  refine (channel_scoring_and_ranking.2 demoChannels demoAnalysis .standard 1000).2.2 _ _
    ?_ ?_
  · have hch : demoChannels
        = [.newswire, .journalist_outreach, .social_media, .owned_media,
           .paid_media, .seo_optimization, .community] := rfl
    rw [hch]
    simp only [List.map]
    exact ((List.nil_sublist _).cons₂ _).cons₂ _
  · show scoreChannel .newswire demoAnalysis .standard 1000
        = scoreChannel .journalist_outreach demoAnalysis .standard 1000
    norm_num [scoreChannel, channelPerformance, industryFit, urgencyLookup, demoAnalysis,
      List.find?, min_def,
      show (UrgencyLevel.immediate == UrgencyLevel.standard) = false from rfl,
      show (UrgencyLevel.urgent == UrgencyLevel.standard) = false from rfl]

/-! ## Stage executor retry loop (src/base_agent.py lines 139-165) -/

/-- Outcome of one invocation of `self.process(input_data)` inside
`BaseAgent._execute_with_retry`: a returned value, a raised `ValueError`
(domain/validation error, carrying `str(e)`), or any other raised
exception. -/
inductive AttemptOutcome (α : Type) where
  | ok (v : α)
  | valueError (e : String)
  | otherError (e : String)

/-- Result of `BaseAgent._execute_with_retry`. In `success` and `raised`,
the first `Nat` is the number of failed attempts that preceded the
terminal event (the retry count) and the second is the total time slept
in backoff waits. `raisedNone` is the `raise last_exception` with
`last_exception = None` when the configured retry count is 0 and the loop
body never runs. -/
inductive RetryOutcome (α : Type) where
  | success (v : α) (retries : Nat) (totalWait : Nat)
  | raised (e : String) (retries : Nat) (totalWait : Nat)
  | raisedNone

/-- The loop of `BaseAgent._execute_with_retry`, one unfolding per unit
of fuel (`fuel = maxRetries - attempt` on entry): invoke
`attempts attempt`; a returned value ends the loop; a `ValueError` is
re-raised immediately; any other exception is remembered as
`last_exception` and, when `attempt < max_retries - 1`, the loop sleeps
`2 ** attempt` before the next attempt. When the range is exhausted the
remembered `last_exception` is raised. -/
def retryAux (attempts : Nat → AttemptOutcome α) (maxRetries : Nat) :
    Nat → Nat → Nat → Option String → RetryOutcome α
  | 0, _, wait, last =>
    match last with
    | some e => .raised e maxRetries wait
    | none => .raisedNone
  | fuel + 1, attempt, wait, _last =>
    match attempts attempt with
    | .ok v => .success v attempt wait
    | .valueError e => .raised e attempt wait
    | .otherError e =>
      let w := if attempt < maxRetries - 1 then 2 ^ attempt else 0
      retryAux attempts maxRetries fuel (attempt + 1) (wait + w) (some e)

/-- The `BaseAgent._execute_with_retry`: `for attempt in range(max_retries)`
starting from attempt 0, no wait accrued, no previous exception. -/
def executeWithRetry (maxRetries : Nat) (attempts : Nat → AttemptOutcome α) :
    RetryOutcome α :=
  retryAux attempts maxRetries maxRetries 0 0 none



/-! ### C4: retry semantics -/

theorem sum_range_two_pow (k : Nat) : ∑ i ∈ Finset.range k, 2 ^ i = 2 ^ k - 1 := by
  induction k with
  | zero => simp
  | succ n ih =>
    rw [Finset.sum_range_succ, ih]
    have h : 1 ≤ 2 ^ n := Nat.one_le_two_pow
    have h2 : 2 ^ (n + 1) = 2 ^ n + 2 ^ n := by ring
    omega

theorem retryAux_skip (attempts : Nat → AttemptOutcome α) (maxRetries k : Nat)
    (em : Nat → String) (hk : k < maxRetries)
    (hfail : ∀ i, i < k → attempts i = .otherError (em i)) :
    ∀ (d j : Nat), k - j = d → j ≤ k → ∀ (wait : Nat) (last : Option String), ∃ last',
      retryAux attempts maxRetries (maxRetries - j) j wait last
        = retryAux attempts maxRetries (maxRetries - k) k (wait + (2 ^ k - 2 ^ j)) last' := by
  intro d
  induction d with
  | zero =>
    intro j hd hj wait last
    have hjk : j = k := by omega
    subst hjk
    exact ⟨last, by simp⟩
  | succ d ih =>
    intro j hd hj wait last
    have hjk : j < k := by omega
    have hfuel : maxRetries - j = (maxRetries - (j + 1)) + 1 := by omega
    have hstep : retryAux attempts maxRetries (maxRetries - j) j wait last
        = retryAux attempts maxRetries (maxRetries - (j + 1)) (j + 1)
            (wait + 2 ^ j) (some (em j)) := by
      rw [hfuel]
      have hw : (if j < maxRetries - 1 then 2 ^ j else 0) = 2 ^ j :=
        if_pos (by omega)
      simp only [retryAux, hfail j hjk, hw]
    obtain ⟨last', hrec⟩ := ih (j + 1) (by omega) (by omega) (wait + 2 ^ j) (some (em j))
    refine ⟨last', ?_⟩
    rw [hstep, hrec]
    have harith : wait + 2 ^ j + (2 ^ k - 2 ^ (j + 1)) = wait + (2 ^ k - 2 ^ j) := by
      have hle : 2 ^ (j + 1) ≤ 2 ^ k := by
        apply Nat.pow_le_pow_right <;> omega
      have hp : (2 : Nat) ^ (j + 1) = 2 ^ j + 2 ^ j := by ring
      rw [hp] at hle ⊢
      generalize 2 ^ j = A at *
      generalize 2 ^ k = B at *
      omega
    rw [harith]

/-- C4: the stage executor's retry loop — (a) a stage invocation that
raises a domain/validation error (`ValueError`) after `k` transient
failures propagates it at once, with `k` retries and only the waits
already accrued (zero retries and zero wait when it is the first
attempt); (b) a stage that fails transiently `k` times (`k < maxRetries`)
and then succeeds yields its value with retry count `k` and total backoff
wait equal to (hence at least) the sum of `2^0 .. 2^(k-1)`; (c) when
every attempt fails transiently the loop propagates the last failure
after `maxRetries` attempts. -/
theorem execute_with_retry_semantics :
    (∀ (α : Type) (attempts : Nat → AttemptOutcome α) (maxRetries k : Nat)
        (em : Nat → String) (e : String),
        k < maxRetries →
        (∀ i, i < k → attempts i = .otherError (em i)) →
        attempts k = .valueError e →
        executeWithRetry maxRetries attempts
          = .raised e k (∑ i ∈ Finset.range k, 2 ^ i))
    ∧ (∀ (α : Type) (attempts : Nat → AttemptOutcome α) (maxRetries k : Nat)
          (em : Nat → String) (v : α),
        k < maxRetries →
        (∀ i, i < k → attempts i = .otherError (em i)) →
        attempts k = .ok v →
        executeWithRetry maxRetries attempts
          = .success v k (∑ i ∈ Finset.range k, 2 ^ i))
    ∧ (∀ (α : Type) (attempts : Nat → AttemptOutcome α) (maxRetries : Nat)
          (em : Nat → String),
        0 < maxRetries →
        (∀ i, i < maxRetries → attempts i = .otherError (em i)) →
        executeWithRetry maxRetries attempts
          = .raised (em (maxRetries - 1)) maxRetries
              (∑ i ∈ Finset.range (maxRetries - 1), 2 ^ i)) := by
  refine ⟨?_, ?_, ?_⟩
  · intro α attempts maxRetries k em e hk hfail hterm
    obtain ⟨last', hskip⟩ := retryAux_skip attempts maxRetries k em hk hfail k 0 rfl
      (Nat.zero_le k) 0 none
    simp only [Nat.sub_zero, pow_zero, Nat.zero_add] at hskip
    unfold executeWithRetry
    rw [hskip]
    have hfuel : maxRetries - k = (maxRetries - (k + 1)) + 1 := by omega
    rw [hfuel]
    simp only [retryAux, hterm]
    rw [sum_range_two_pow]
  · intro α attempts maxRetries k em v hk hfail hterm
    obtain ⟨last', hskip⟩ := retryAux_skip attempts maxRetries k em hk hfail k 0 rfl
      (Nat.zero_le k) 0 none
    simp only [Nat.sub_zero, pow_zero, Nat.zero_add] at hskip
    unfold executeWithRetry
    rw [hskip]
    have hfuel : maxRetries - k = (maxRetries - (k + 1)) + 1 := by omega
    rw [hfuel]
    simp only [retryAux, hterm]
    rw [sum_range_two_pow]
  · intro α attempts maxRetries em hpos hfail
    have hk : maxRetries - 1 < maxRetries := by omega
    obtain ⟨last', hskip⟩ := retryAux_skip attempts maxRetries (maxRetries - 1) em hk
      (fun i hi => hfail i (by omega)) (maxRetries - 1) 0 rfl (Nat.zero_le _) 0 none
    simp only [Nat.sub_zero, pow_zero, Nat.zero_add] at hskip
    unfold executeWithRetry
    rw [hskip]
    have hfuel : maxRetries - (maxRetries - 1) = 0 + 1 := by omega
    rw [hfuel]
    have hw : (if maxRetries - 1 < maxRetries - 1 then 2 ^ (maxRetries - 1) else 0) = 0 :=
      if_neg (by omega)
    simp only [retryAux, hfail (maxRetries - 1) hk, hw, Nat.add_zero]
    rw [sum_range_two_pow]

/-- Witness for C4: with 3 configured attempts, a stage failing
transiently twice then succeeding returns its value with retry count 2
and total wait `2^0 + 2^1 = 3`. -/
theorem execute_with_retry_semantics_witness :
    executeWithRetry 3 (fun i =>
        match i with
        | 0 => AttemptOutcome.otherError "t0"
        | 1 => AttemptOutcome.otherError "t1"
        | _ => AttemptOutcome.ok (42 : Nat))
      = .success 42 2 (∑ i ∈ Finset.range 2, 2 ^ i) := by
  refine execute_with_retry_semantics.2.1 Nat _ 3 2
    (fun i => if i = 0 then "t0" else "t1") 42 (by omega) ?_ rfl
  intro i hi
  interval_cases i <;> rfl

/-! ## Workflow coordinator (src/orchestrator_agent.py)

`OrchestratorAgent.process` drives the staged pipeline over one mutable
`OrchestratorOutput` record. The embedding passes the record explicitly
and returns, besides the final record, the list of record states at each
observation point — the record state during each `await` of a stage
(status and current step are mutated before the await) and after each
stage's completion bookkeeping, plus the stored initial state and the
finalized return value. The paired
`steps_completed.append(name)` / `steps_remaining.remove(name)` mutations
have no `await` between them, so they are one atomic step at every
observation point. Each stage outcome in `OrchEnv` is the result of that
agent's `execute` call: `ok` a result, or `error str(e)` when it raised
after the stage executor's own retries. -/

/-- Result of the market-intelligence stage as the coordinator consumes
it (no field of it is read by the coordinator's control flow). -/
inductive ContentAnalysisR where
  | mk
deriving DecidableEq, Repr

/-- Result of the journalist-targeting stage as the coordinator consumes
it (no field of it drives the coordinator's control flow). -/
inductive JournalistTargetingR where
  | mk
deriving DecidableEq, Repr

/-- The `ComplianceReport` of src/models.py restricted to the field the
coordinator's gate reads. -/
structure ComplianceReportR where
  can_proceed : Bool
deriving DecidableEq, Repr

/-- The `ChannelMix` of src/models.py restricted to the field the coordinator
reads (the channel allocation list, for the journalist-outreach test). -/
structure ChannelMixR where
  channels : List DeployChannelAlloc
deriving DecidableEq, Repr

/-- The `OrchestratorOutput` of src/models.py (the fields
`OrchestratorAgent.process` writes; timestamps as rationals). -/
structure OrchestratorOutput where
  status : DistributionStatus
  current_step : String
  steps_completed : List String
  steps_remaining : List String
  errors : List String
  content_analysis : Option ContentAnalysisR
  compliance_report : Option ComplianceReportR
  channel_mix : Option ChannelMixR
  journalist_targeting : Option JournalistTargetingR
  distribution_results : Option DistributionResults
  started_at : ℚ
  completed_at : Option ℚ
  total_execution_time_seconds : Option ℚ
deriving DecidableEq, Repr

/-- The behaviour of the five stage `execute` calls during one run:
`ok` a returned result or `error` the text of the exception the stage
raised (after the stage executor's internal retries). -/
structure OrchEnv where
  contentAnalysis : Except String ContentAnalysisR
  complianceCheck : Except String ComplianceReportR
  channelRouting : Except String ChannelMixR
  journalistTargeting : Except String JournalistTargetingR
  deployment : Except String DistributionResults

/-- One coordinated run: the returned record, the trace of record states
at each observation point (the final record is its last element), the
stage invocations performed in order (with a `schedule_analytics` marker
for the fire-and-forget analytics scheduling, which only logs), and the
exception message caught by the coordinator's handler, if any. -/
structure OrchRun where
  out : OrchestratorOutput
  trace : List OrchestratorOutput
  invoked : List String
  raised : Option String

/-- The `steps_remaining` list of the freshly initialized record
(src/orchestrator_agent.py lines 130-137). -/
def fullStepList : List String :=
  ["content_analysis", "compliance_check", "channel_routing",
   "journalist_targeting", "deployment", "analytics"]

/-- The record as initialized at the top of `OrchestratorAgent.process`
and stored in the run registry. -/
def initOutput (t0 : ℚ) : OrchestratorOutput :=
  { status := .pending, current_step := "initialization",
    steps_completed := [], steps_remaining := fullStepList, errors := [],
    content_analysis := none, compliance_report := none, channel_mix := none,
    journalist_targeting := none, distribution_results := none,
    started_at := t0, completed_at := none, total_execution_time_seconds := none }

/-- The `OrchestratorAgent._finalize_output`: stamp the completion time and
derive the total duration as completion minus start. -/
def finalizeOutput (t1 : ℚ) (o : OrchestratorOutput) : OrchestratorOutput :=
  { o with completed_at := some t1,
           total_execution_time_seconds := some (t1 - o.started_at) }

/-- The deployment tail of `OrchestratorAgent.process` (steps 6-8 plus
the exception handler), shared by the two journalist-targeting branches. -/
def deployPhase (env : OrchEnv) (t1 : ℚ) (o : OrchestratorOutput)
    (trace : List OrchestratorOutput) (invoked : List String) : OrchRun :=
  let o9 := { o with status := .deploying, current_step := "deployment" }
  match env.deployment with
  | .error e =>
    let fin := finalizeOutput t1 { o9 with status := .failed, errors := o9.errors ++ [e] }
    { out := fin, trace := trace ++ [o9, fin],
      invoked := invoked ++ ["deployment"], raised := some e }
  | .ok dr =>
    let o10 := { o9 with
      distribution_results := some dr
      steps_completed := o9.steps_completed ++ ["deployment"]
      steps_remaining := o9.steps_remaining.erase "deployment" }
    let o11 := { o10 with status := .completed, current_step := "completed" }
    let fin := finalizeOutput t1 o11
    { out := fin, trace := trace ++ [o9, o10, o11, fin],
      invoked := invoked ++ ["deployment", "schedule_analytics"], raised := none }

/-- The `OrchestratorAgent.process`: content analysis, compliance check, the
compliance gate, channel routing, conditional journalist targeting,
deployment, analytics scheduling, completion — with the catch-all
exception handler that marks the run failed, appends the error text and
still finalizes timing. -/
def orchProcess (env : OrchEnv) (t0 t1 : ℚ) : OrchRun :=
  let o0 := initOutput t0
  let o1 := { o0 with status := .analyzing, current_step := "content_analysis" }
  match env.contentAnalysis with
  | .error e =>
    let fin := finalizeOutput t1 { o1 with status := .failed, errors := o1.errors ++ [e] }
    { out := fin, trace := [o0, o1, fin],
      invoked := ["content_analysis"], raised := some e }
  | .ok ca =>
    let o2 := { o1 with
      content_analysis := some ca
      steps_completed := o1.steps_completed ++ ["content_analysis"]
      steps_remaining := o1.steps_remaining.erase "content_analysis" }
    let o3 := { o2 with current_step := "compliance_check" }
    match env.complianceCheck with
    | .error e =>
      let fin := finalizeOutput t1 { o3 with status := .failed, errors := o3.errors ++ [e] }
      { out := fin, trace := [o0, o1, o2, o3, fin],
        invoked := ["content_analysis", "compliance_check"], raised := some e }
    | .ok cr =>
      let o4 := { o3 with
        compliance_report := some cr
        steps_completed := o3.steps_completed ++ ["compliance_check"]
        steps_remaining := o3.steps_remaining.erase "compliance_check" }
      if cr.can_proceed = false then
        let fin := finalizeOutput t1 { o4 with
          status := .failed
          errors := o4.errors ++ ["Failed compliance check - cannot proceed"] }
        { out := fin, trace := [o0, o1, o2, o3, o4, fin],
          invoked := ["content_analysis", "compliance_check"], raised := none }
      else
        let o5 := { o4 with status := .planning, current_step := "channel_routing" }
        match env.channelRouting with
        | .error e =>
          let fin := finalizeOutput t1
            { o5 with status := .failed, errors := o5.errors ++ [e] }
          { out := fin, trace := [o0, o1, o2, o3, o4, o5, fin],
            invoked := ["content_analysis", "compliance_check", "channel_routing"],
            raised := some e }
        | .ok cm =>
          let o6 := { o5 with
            channel_mix := some cm
            steps_completed := o5.steps_completed ++ ["channel_routing"]
            steps_remaining := o5.steps_remaining.erase "channel_routing" }
          if cm.channels.any (fun a => a.channel == .journalist_outreach) then
            let o7 := { o6 with current_step := "journalist_targeting" }
            match env.journalistTargeting with
            | .error e =>
              let fin := finalizeOutput t1
                { o7 with status := .failed, errors := o7.errors ++ [e] }
              { out := fin, trace := [o0, o1, o2, o3, o4, o5, o6, o7, fin],
                invoked := ["content_analysis", "compliance_check", "channel_routing",
                            "journalist_targeting"],
                raised := some e }
            | .ok jt =>
              let o8 := { o7 with
                journalist_targeting := some jt
                steps_completed := o7.steps_completed ++ ["journalist_targeting"]
                steps_remaining := o7.steps_remaining.erase "journalist_targeting" }
              deployPhase env t1 o8 [o0, o1, o2, o3, o4, o5, o6, o7, o8]
                ["content_analysis", "compliance_check", "channel_routing",
                 "journalist_targeting"]
          else
            let o8 := { o6 with
              steps_remaining := o6.steps_remaining.erase "journalist_targeting" }
            deployPhase env t1 o8 [o0, o1, o2, o3, o4, o5, o6, o8]
              ["content_analysis", "compliance_check", "channel_routing"]

/-! ### C2: the compliance gate -/

/-- C2: whenever the compliance result's `can_proceed` flag is false, the
coordinator marks the run `FAILED`, appends the explanatory error, and
invokes no further stage — channel routing, journalist targeting and
deployment never run, so the run has no channel mix and no deployment
attempt (`distribution_results` stays `none`). -/
theorem compliance_gate_blocks_run (t0 t1 : ℚ) (ca : ContentAnalysisR)
    (cr : ComplianceReportR)
    (ecr : Except String ChannelMixR) (ejt : Except String JournalistTargetingR)
    (edep : Except String DistributionResults)
    (hgate : cr.can_proceed = false) :
    (orchProcess ⟨.ok ca, .ok cr, ecr, ejt, edep⟩ t0 t1).out.status = .failed
    ∧ "Failed compliance check - cannot proceed"
        ∈ (orchProcess ⟨.ok ca, .ok cr, ecr, ejt, edep⟩ t0 t1).out.errors
    ∧ (orchProcess ⟨.ok ca, .ok cr, ecr, ejt, edep⟩ t0 t1).invoked
        = ["content_analysis", "compliance_check"]
    ∧ (orchProcess ⟨.ok ca, .ok cr, ecr, ejt, edep⟩ t0 t1).out.distribution_results = none
    ∧ (orchProcess ⟨.ok ca, .ok cr, ecr, ejt, edep⟩ t0 t1).out.channel_mix = none := by
  simp [orchProcess, hgate, finalizeOutput, initOutput]

/-- Witness for C2: a concrete gated run. -/
theorem compliance_gate_blocks_run_witness :
    (orchProcess ⟨.ok .mk, .ok ⟨false⟩, .error "na", .error "na", .error "na"⟩ 0 1).out.status
        = .failed
    ∧ "Failed compliance check - cannot proceed"
        ∈ (orchProcess ⟨.ok .mk, .ok ⟨false⟩, .error "na", .error "na", .error "na"⟩ 0 1).out.errors
    ∧ (orchProcess ⟨.ok .mk, .ok ⟨false⟩, .error "na", .error "na", .error "na"⟩ 0 1).invoked
        = ["content_analysis", "compliance_check"]
    ∧ (orchProcess ⟨.ok .mk, .ok ⟨false⟩, .error "na", .error "na", .error "na"⟩ 0 1).out.distribution_results
        = none
    ∧ (orchProcess ⟨.ok .mk, .ok ⟨false⟩, .error "na", .error "na", .error "na"⟩ 0 1).out.channel_mix
        = none :=
  compliance_gate_blocks_run 0 1 .mk ⟨false⟩ (.error "na") (.error "na") (.error "na") rfl

/-! ### C6: failure finalization -/

/-- C6: every coordinated run terminates `COMPLETED` or `FAILED` with a
stamped completion time and a total duration equal to completion minus
start; and whenever a stage raised an unhandled exception (caught by the
coordinator's handler), the run ends `FAILED` with the exception's
message appended to the error list. -/
theorem run_termination_finalized (env : OrchEnv) (t0 t1 : ℚ) :
    ((orchProcess env t0 t1).out.status = .completed
        ∨ (orchProcess env t0 t1).out.status = .failed)
    ∧ (orchProcess env t0 t1).out.completed_at = some t1
    ∧ (orchProcess env t0 t1).out.total_execution_time_seconds = some (t1 - t0)
    ∧ ∀ e, (orchProcess env t0 t1).raised = some e →
        (orchProcess env t0 t1).out.status = .failed
        ∧ e ∈ (orchProcess env t0 t1).out.errors := by
  obtain ⟨eca, ecc, ecr, ejt, edep⟩ := env
  rcases eca with e1 | ca
  · simp [orchProcess, finalizeOutput, initOutput]
  · rcases ecc with e2 | cr
    · simp [orchProcess, finalizeOutput, initOutput]
    · rcases hcp : cr.can_proceed with _ | _
      · simp [orchProcess, finalizeOutput, initOutput, hcp]
      · rcases ecr with e3 | cm
        · simp [orchProcess, finalizeOutput, initOutput, hcp]
        · rcases hjo : cm.channels.any (fun a => a.channel == .journalist_outreach) with _ | _
          · rcases edep with e5 | dr
            · simp [orchProcess, deployPhase, finalizeOutput, initOutput, hcp, hjo]
            · simp [orchProcess, deployPhase, finalizeOutput, initOutput, hcp, hjo]
          · rcases ejt with e4 | jt
            · simp [orchProcess, finalizeOutput, initOutput, hcp, hjo]
            · rcases edep with e5 | dr
              · simp [orchProcess, deployPhase, finalizeOutput, initOutput, hcp, hjo]
              · simp [orchProcess, deployPhase, finalizeOutput, initOutput, hcp, hjo]

/-- Witness for C6: a run whose first stage raises ends failed with the
message recorded, timing stamped. -/
theorem run_termination_finalized_witness :
    (orchProcess ⟨.error "boom", .error "na", .error "na", .error "na", .error "na"⟩ 0 1).out.status
        = .failed
    ∧ "boom" ∈ (orchProcess ⟨.error "boom", .error "na", .error "na", .error "na", .error "na"⟩ 0 1).out.errors :=
  (run_termination_finalized ⟨.error "boom", .error "na", .error "na", .error "na", .error "na"⟩ 0 1).2.2.2
    "boom" rfl

/-! ### C7 and C10: step-list invariants along the trace -/

/-- C7: at every observation point of every run, no stage name is in both
`steps_completed` and `steps_remaining`, and every name of the full stage
set is in one of the two lists — except `journalist_targeting`, which the
documented branch rule may drop from `steps_remaining` without completing
it. -/
theorem steps_partition_invariant (env : OrchEnv) (t0 t1 : ℚ)
    (s : OrchestratorOutput) (hs : s ∈ (orchProcess env t0 t1).trace) :
    (∀ x ∈ s.steps_completed, x ∉ s.steps_remaining)
    ∧ (∀ x ∈ fullStepList, x ∈ s.steps_completed ∨ x ∈ s.steps_remaining
        ∨ x = "journalist_targeting") := by
  obtain ⟨eca, ecc, ecr, ejt, edep⟩ := env
  rcases eca with e1 | ca
  · simp only [orchProcess, initOutput, finalizeOutput] at hs
    fin_cases hs <;> dsimp only <;> decide
  · rcases ecc with e2 | cr
    · simp only [orchProcess, initOutput, finalizeOutput] at hs
      fin_cases hs <;> dsimp only <;> decide
    · rcases hcp : cr.can_proceed with _ | _
      · simp only [orchProcess, initOutput, finalizeOutput, hcp] at hs
        fin_cases hs <;> dsimp only <;> decide
      · rcases ecr with e3 | cm
        · simp only [orchProcess, initOutput, finalizeOutput, hcp] at hs
          fin_cases hs <;> dsimp only <;> decide
        · rcases hjo : cm.channels.any (fun a => a.channel == .journalist_outreach) with _ | _
          · rcases edep with e5 | dr
            · simp only [orchProcess, deployPhase, initOutput, finalizeOutput, hcp, hjo] at hs
              fin_cases hs <;> dsimp only <;> decide
            · simp only [orchProcess, deployPhase, initOutput, finalizeOutput, hcp, hjo] at hs
              fin_cases hs <;> dsimp only <;> decide
          · rcases ejt with e4 | jt
            · simp only [orchProcess, initOutput, finalizeOutput, hcp, hjo] at hs
              fin_cases hs <;> dsimp only <;> decide
            · rcases edep with e5 | dr
              · simp only [orchProcess, deployPhase, initOutput, finalizeOutput, hcp, hjo] at hs
                fin_cases hs <;> dsimp only <;> decide
              · simp only [orchProcess, deployPhase, initOutput, finalizeOutput, hcp, hjo] at hs
                fin_cases hs <;> dsimp only <;> decide

/-- C10: at every observation point of every run, the analytics stage
name is never in `steps_completed` and always still in `steps_remaining`:
scheduling analytics only logs, so even a completed run ends with
`analytics` remaining. -/
theorem analytics_never_progresses (env : OrchEnv) (t0 t1 : ℚ)
    (s : OrchestratorOutput) (hs : s ∈ (orchProcess env t0 t1).trace) :
    "analytics" ∉ s.steps_completed ∧ "analytics" ∈ s.steps_remaining := by
  obtain ⟨eca, ecc, ecr, ejt, edep⟩ := env
  rcases eca with e1 | ca
  · simp only [orchProcess, initOutput, finalizeOutput] at hs
    fin_cases hs <;> dsimp only <;> decide
  · rcases ecc with e2 | cr
    · simp only [orchProcess, initOutput, finalizeOutput] at hs
      fin_cases hs <;> dsimp only <;> decide
    · rcases hcp : cr.can_proceed with _ | _
      · simp only [orchProcess, initOutput, finalizeOutput, hcp] at hs
        fin_cases hs <;> dsimp only <;> decide
      · rcases ecr with e3 | cm
        · simp only [orchProcess, initOutput, finalizeOutput, hcp] at hs
          fin_cases hs <;> dsimp only <;> decide
        · rcases hjo : cm.channels.any (fun a => a.channel == .journalist_outreach) with _ | _
          · rcases edep with e5 | dr
            · simp only [orchProcess, deployPhase, initOutput, finalizeOutput, hcp, hjo] at hs
              fin_cases hs <;> dsimp only <;> decide
            · simp only [orchProcess, deployPhase, initOutput, finalizeOutput, hcp, hjo] at hs
              fin_cases hs <;> dsimp only <;> decide
          · rcases ejt with e4 | jt
            · simp only [orchProcess, initOutput, finalizeOutput, hcp, hjo] at hs
              fin_cases hs <;> dsimp only <;> decide
            · rcases edep with e5 | dr
              · simp only [orchProcess, deployPhase, initOutput, finalizeOutput, hcp, hjo] at hs
                fin_cases hs <;> dsimp only <;> decide
              · simp only [orchProcess, deployPhase, initOutput, finalizeOutput, hcp, hjo] at hs
                fin_cases hs <;> dsimp only <;> decide

/-- A concrete successful run used by the trace-invariant witnesses: the
channel mix carries no journalist outreach (the skip branch), deployment
returns a successful single-channel result, and the run completes. -/
def demoRunEnv : OrchEnv :=
  ⟨.ok .mk, .ok ⟨true⟩, .ok ⟨[⟨.newswire, 600⟩]⟩, .ok .mk,
   .ok ⟨[], 1, 1, 0, 0, [], "success"⟩⟩

theorem demoRun_out_mem_trace :
    (orchProcess demoRunEnv 0 1).out ∈ (orchProcess demoRunEnv 0 1).trace := by
  simp [demoRunEnv, orchProcess, deployPhase, initOutput, finalizeOutput,
    show (ChannelType.newswire == ChannelType.journalist_outreach) = false from rfl]

/-- Witness for C7: the final record of a concrete completed run
satisfies the partition invariant. -/
theorem steps_partition_invariant_witness :
    (∀ x ∈ (orchProcess demoRunEnv 0 1).out.steps_completed,
        x ∉ (orchProcess demoRunEnv 0 1).out.steps_remaining)
    ∧ (∀ x ∈ fullStepList,
        x ∈ (orchProcess demoRunEnv 0 1).out.steps_completed
        ∨ x ∈ (orchProcess demoRunEnv 0 1).out.steps_remaining
        ∨ x = "journalist_targeting") :=
  steps_partition_invariant demoRunEnv 0 1 _ demoRun_out_mem_trace

/-- Witness for C10: the final record of a concrete completed run still
lists `analytics` as remaining and never as completed. -/
theorem analytics_never_progresses_witness :
    "analytics" ∉ (orchProcess demoRunEnv 0 1).out.steps_completed
    ∧ "analytics" ∈ (orchProcess demoRunEnv 0 1).out.steps_remaining :=
  analytics_never_progresses demoRunEnv 0 1 _ demoRun_out_mem_trace
